import Mathlib

/-!
# Clash Linux runner: `linux/runner/my_application.cc`

A shallow embedding of the GTK host of the Clash desktop application and the
properties of its window-icon resolution, window chrome selection, command
line handling and log filtering.

C strings are modelled as `String` (a `NULL` pointer is `none`), `gboolean` as
`Bool`, `GLogLevelFlags` as `Nat`.  Every call into GLib / GTK / Flutter that
the runner makes is recorded, in program order, as a `Call`.
-/

namespace Clash

/-! ## C string helpers used by the runner -/

/-- The C library `strcmp`, as a sign: characters are compared in order, a
proper prefix is smaller. -/
def strcmp : List Char → List Char → Int
  | [], [] => 0
  | [], _ :: _ => -1
  | _ :: _, [] => 1
  | a :: as, b :: bs =>
    if a = b then strcmp as bs else if a.toNat < b.toNat then -1 else 1

/-- GLib `g_strcmp0`: `strcmp` that also accepts `NULL`, which sorts before
every string. -/
def g_strcmp0 : Option String → Option String → Int
  | none, none => 0
  | none, some _ => -1
  | some _, none => 1
  | some a, some b => strcmp a.data b.data

/-- Does the character list `s` begin with `p` (the test `strncmp (s, p, strlen p) == 0`). -/
def startsWith : List Char → List Char → Bool
  | _, [] => true
  | [], _ :: _ => false
  | c :: s, d :: p => c == d && startsWith s p

/-- GLib `g_str_has_prefix (str, prefix)`. -/
def g_str_has_prefix (str pre : String) : Bool :=
  startsWith str.data pre.data

/-- The C library `strstr`: the suffix of `haystack` starting at the first
occurrence of `needle`, or `none` (`NULL`) when there is none. -/
def strstr : List Char → List Char → Option (List Char)
  | [], needle => if needle.isEmpty then some [] else none
  | c :: hay, needle =>
    if startsWith (c :: hay) needle then some (c :: hay) else strstr hay needle

/-- GLib `g_strstr_len (haystack, haystack_len, needle)`; for a negative
`haystack_len` it is `strstr`.  The runner only passes `-1`; for a
non-negative length the search is limited to that many characters. -/
def g_strstr_len (haystack : String) (haystack_len : Int) (needle : String) :
    Option (List Char) :=
  if haystack_len < 0 then strstr haystack.data needle.data
  else
    match strstr (haystack.data.take haystack_len.toNat) needle.data with
    | some r => some (r ++ haystack.data.drop haystack_len.toNat)
    | none => none

/-! ## Log handler -/

/-- GLib `G_LOG_LEVEL_CRITICAL`, `1 << 3` in `GLogLevelFlags`. -/
def G_LOG_LEVEL_CRITICAL : Nat := 1 <<< 3

/-- One invocation of `g_log_default_handler (log_domain, log_level, message, user_data)`. -/
structure DefaultHandlerCall where
  log_domain : Option String
  log_level : Nat
  message : Option String
  user_data : Nat
  deriving DecidableEq

/-- The test of `suppress_gtk_screen_warning` (the condition of its `if`). -/
def suppress_condition (log_domain : Option String) (log_level : Nat)
    (message : Option String) : Bool :=
  log_level == G_LOG_LEVEL_CRITICAL &&
  (match log_domain with
   | none => false
   | some d => g_str_has_prefix d "Gtk") &&
  (match message with
   | none => false
   | some m => (g_strstr_len m (-1) "gtk_icon_theme_get_for_screen").isSome)

/-- The handler `suppress_gtk_screen_warning`: the list of calls it makes to
`g_log_default_handler`. -/
def suppress_gtk_screen_warning (log_domain : Option String) (log_level : Nat)
    (message : Option String) (user_data : Nat) : List DefaultHandlerCall :=
  if suppress_condition log_domain log_level message then
    []
  else
    [⟨log_domain, log_level, message, user_data⟩]

/-! ## The world the runner talks to -/

/-- An image held by GTK, identified by where it was decoded from. -/
inductive GdkPixbuf
  | fromFile (filename : String)
  | fromTheme (icon_name : String) (size : Int)
  deriving DecidableEq

/-- Outcome of a GLib-style call that returns a `gboolean` and reports through
a `GError **`: the returned flag and the message of the error left in the out
parameter, if one was set. -/
structure GErrorResult where
  ok : Bool
  error : Option String
  deriving DecidableEq

/-- Outcome of `readlink (path, buf, bufsiz)`: the returned length (`-1` on
error) and the characters placed in the buffer. -/
structure ReadlinkResult where
  len : Int
  buf : String
  deriving DecidableEq

/-- A `GdkScreen`: whether it belongs to the X11 backend, and the name its
window manager announces (`NULL` is `none`). -/
structure GdkScreen where
  is_x11 : Bool
  wm_name : Option String
  deriving DecidableEq

/-- Everything outside the runner that its behaviour depends on: the build
configuration, the display, the filesystem and the answers of GLib / GTK. -/
structure Env where
  /-- Is the preprocessor symbol `GDK_WINDOWING_X11` defined in this build. -/
  GDK_WINDOWING_X11 : Bool
  /-- The build-time macro `APPLICATION_ID`. -/
  APPLICATION_ID : String
  /-- Result of `gtk_window_get_screen (window)`. -/
  gtk_window_get_screen : Option GdkScreen
  /-- Result of `readlink (path, buf, bufsiz)`. -/
  readlink : String → Nat → ReadlinkResult
  /-- Result of `g_path_get_dirname (file_name)`. -/
  g_path_get_dirname : String → Option String
  /-- Result of `g_file_test (filename, G_FILE_TEST_EXISTS)`. -/
  g_file_test : String → Bool
  /-- Result of `gtk_window_set_icon_from_file (window, filename, &error)`.
  GTK installs the decoded image as the window icon exactly when it returns
  `TRUE`. -/
  gtk_window_set_icon_from_file : String → GErrorResult
  /-- Result of `g_application_register (application, nullptr, &error)`. -/
  g_application_register : GErrorResult
  /-- Does `gtk_icon_theme_get_default ()` return a theme (non-`NULL`). -/
  gtk_icon_theme_get_default : Bool
  /-- Does `gtk_icon_theme_load_icon (theme, name, size, flags, &error)` return
  an image (otherwise `NULL` with the error set). -/
  gtk_icon_theme_load_icon : String → Int → Bool
  /-- Does `gdk_pixbuf_new_from_file (filename, nullptr)` return an image. -/
  gdk_pixbuf_new_from_file : String → Bool

/-- The widgets the runner shows. -/
inductive Widget
  | header_bar
  | view
  deriving DecidableEq

/-- A call the runner makes into GLib, GTK, the C library or the Flutter
embedder, with the arguments that matter here. -/
inductive Call
  | gtk_application_window_new
  | gtk_window_get_screen
  | gdk_x11_screen_get_window_manager_name
  | gtk_header_bar_new
  | gtk_widget_show (widget : Widget)
  | gtk_header_bar_set_title (title : String)
  | gtk_header_bar_set_show_close_button (setting : Bool)
  | gtk_window_set_titlebar
  | gtk_window_set_title (title : String)
  | gtk_window_set_default_size (width height : Int)
  | readlink (path : String) (bufsiz : Nat)
  | g_path_get_dirname (file_name : String)
  | g_file_test (filename : String)
  | gtk_window_set_icon_from_file (filename : String)
  | g_warning (format : String) (args : List String)
  | g_clear_error
  | fl_dart_project_new
  | fl_dart_project_set_dart_entrypoint_arguments (argv : Option (List String))
  | fl_view_new
  | gdk_rgba_parse (spec : String)
  | fl_view_set_background_color (color : String)
  | gtk_container_add (widget : Widget)
  | g_signal_connect_swapped (widget : Widget) (detailed_signal : String)
  | gtk_widget_realize (widget : Widget)
  | fl_register_plugins
  | gtk_widget_grab_focus (widget : Widget)
  | g_strdupv (str_array : List String)
  | g_application_register
  | g_application_activate
  | g_log_set_handler (log_domain : String) (log_levels : Nat)
  | g_set_prgname (prgname : String)
  | gtk_icon_theme_get_default
  | gtk_icon_theme_load_icon (icon_name : String) (size : Int)
  | gdk_pixbuf_new_from_file (filename : String)
  | gtk_window_set_default_icon (icon : GdkPixbuf)
  | g_object_unref
  | g_object_new (application_id : String)
  deriving DecidableEq

/-- A `GtkHeaderBar` as the runner configures it. -/
structure GtkHeaderBar where
  title : Option String
  show_close_button : Bool
  visible : Bool
  deriving DecidableEq

/-- The Flutter view placed in the window. -/
structure FlView where
  /-- Arguments given to the Dart entry point through the project. -/
  dart_entrypoint_arguments : Option (List String)
  background_color : String
  visible : Bool
  realized : Bool
  plugins_registered : Bool
  has_focus : Bool
  deriving DecidableEq

/-- The top-level window. -/
structure GtkWindow where
  /-- The custom title bar set with `gtk_window_set_titlebar`. -/
  titlebar : Option GtkHeaderBar
  /-- The title set with `gtk_window_set_title`. -/
  title : Option String
  /-- The size set with `gtk_window_set_default_size`. -/
  default_size : Option (Int × Int)
  /-- The image installed as the icon of this window. -/
  icon : Option GdkPixbuf
  /-- The widget added with `gtk_container_add`. -/
  child : Option FlView
  deriving DecidableEq

/-- The window returned by `gtk_application_window_new`: nothing set yet. -/
def gtk_application_window_new : GtkWindow :=
  ⟨none, none, none, none, none⟩

/-- The object `struct _MyApplication`. -/
structure MyApplication where
  dart_entrypoint_arguments : Option (List String)
  deriving DecidableEq

/-- The constant `PATH_MAX` of `<limits.h>` on Linux. -/
def PATH_MAX : Nat := 4096

/-! ## `my_application_activate` -/

/-- Lines 57-66: the choice between a header bar and a traditional title bar,
with the calls made while choosing. -/
def use_header_bar (env : Env) : Bool × List Call :=
  if env.GDK_WINDOWING_X11 then
    match env.gtk_window_get_screen with
    | none => (true, [Call.gtk_window_get_screen])
    | some screen =>
      if screen.is_x11 then
        if g_strcmp0 screen.wm_name (some "GNOME Shell") != 0 then
          (false, [Call.gtk_window_get_screen, Call.gdk_x11_screen_get_window_manager_name])
        else
          (true, [Call.gtk_window_get_screen, Call.gdk_x11_screen_get_window_manager_name])
      else (true, [Call.gtk_window_get_screen])
  else (true, [])

/-- Lines 67-77: the window decoration and the default size. -/
def activate_chrome (env : Env) (window : GtkWindow) : GtkWindow × List Call :=
  let choice := use_header_bar env
  let decorated : GtkWindow × List Call :=
    if choice.1 then
      ({ window with titlebar := some ⟨some "Clash", true, true⟩ },
       [Call.gtk_header_bar_new, Call.gtk_widget_show Widget.header_bar,
        Call.gtk_header_bar_set_title "Clash",
        Call.gtk_header_bar_set_show_close_button true,
        Call.gtk_window_set_titlebar])
    else
      ({ window with title := some "Clash" }, [Call.gtk_window_set_title "Clash"])
  ({ decorated.1 with default_size := some (1280, 720) },
   choice.2 ++ decorated.2 ++ [Call.gtk_window_set_default_size 1280 720])

/-- Lines 84-93: the directory of the running executable, empty when it cannot
be found, with the calls made to find it. -/
def exe_dir (env : Env) : String × List Call :=
  let r := env.readlink "/proc/self/exe" PATH_MAX
  if r.len > 0 then
    let exe_buf := String.mk (r.buf.data.take r.len.toNat)
    match env.g_path_get_dirname exe_buf with
    | some dir => (dir, [Call.readlink "/proc/self/exe" PATH_MAX, Call.g_path_get_dirname exe_buf])
    | none => ("", [Call.readlink "/proc/self/exe" PATH_MAX, Call.g_path_get_dirname exe_buf])
  else ("", [Call.readlink "/proc/self/exe" PATH_MAX])

/-- Line 95-96: the first bundle-relative candidate. -/
def candidate1 (dir : String) : String :=
  if dir.data.isEmpty then "" else dir ++ "/data/flutter_assets/assets/taskbar_icon_noalpha.png"

/-- Line 97-98: the second bundle-relative candidate. -/
def candidate2 (dir : String) : String :=
  if dir.data.isEmpty then "" else dir ++ "/data/flutter_assets/icon.png"

/-- Line 99. -/
def fallback1 : String := "runner/icon.png"

/-- Line 100. -/
def fallback2 : String := "icon.png"

/-- The local variables of the icon block after lines 102-112, together with
the window and the calls made. -/
structure IconAttempt where
  set_ok : Bool
  error : Option String
  window : GtkWindow
  calls : List Call
  deriving DecidableEq

/-- One `set_ok = gtk_window_set_icon_from_file (window, filename, &error)`,
made after the calls `before`. -/
def set_icon_from_file (env : Env) (window : GtkWindow) (filename : String)
    (before : List Call) : IconAttempt :=
  let r := env.gtk_window_set_icon_from_file filename
  { set_ok := r.ok
    error := r.error
    window := if r.ok then { window with icon := some (GdkPixbuf.fromFile filename) } else window
    calls := before ++ [Call.gtk_window_set_icon_from_file filename] }

/-- Lines 102-112: the `if` / `else if` chain over the four candidates.  A
bundle-relative candidate that is the empty string is not tested. -/
def icon_attempt (env : Env) (window : GtkWindow) (c1 c2 : String) : IconAttempt :=
  let t1 : List Call := if c1.data.isEmpty then [] else [Call.g_file_test c1]
  if !c1.data.isEmpty && env.g_file_test c1 then
    set_icon_from_file env window c1 t1
  else
    let t2 : List Call := t1 ++ (if c2.data.isEmpty then [] else [Call.g_file_test c2])
    if !c2.data.isEmpty && env.g_file_test c2 then
      set_icon_from_file env window c2 t2
    else
      let t3 : List Call := t2 ++ [Call.g_file_test fallback1]
      if env.g_file_test fallback1 then
        set_icon_from_file env window fallback1 t3
      else
        let t4 : List Call := t3 ++ [Call.g_file_test fallback2]
        if env.g_file_test fallback2 then
          set_icon_from_file env window fallback2 t4
        else
          { set_ok := false, error := none, window := window, calls := t4 }

/-- Lines 114-124: what is reported about the attempt. -/
def icon_report (a : IconAttempt) : List Call :=
  if !a.set_ok then
    match a.error with
    | some message => [Call.g_warning "Failed to set window icon: %s" [message], Call.g_clear_error]
    | none => [Call.g_warning "Failed to set window icon: no usable icon file found" []]
  else
    match a.error with
    | some _ => [Call.g_clear_error]
    | none => []

/-- Lines 83-125: the block that sets the window (taskbar) icon. -/
def activate_window_icon (env : Env) (window : GtkWindow) : GtkWindow × List Call :=
  let dir := exe_dir env
  let a := icon_attempt env window (candidate1 dir.1) (candidate2 dir.1)
  (a.window, dir.2 ++ a.calls ++ icon_report a)

/-- Lines 127-145: the Flutter view is created, configured and added to the
window. -/
def activate_view (self : MyApplication) (window : GtkWindow) : GtkWindow × List Call :=
  ({ window with
      child := some
        { dart_entrypoint_arguments := self.dart_entrypoint_arguments
          background_color := "#000000"
          visible := true
          realized := true
          plugins_registered := true
          has_focus := true } },
   [Call.fl_dart_project_new,
    Call.fl_dart_project_set_dart_entrypoint_arguments self.dart_entrypoint_arguments,
    Call.fl_view_new,
    Call.gdk_rgba_parse "#000000",
    Call.fl_view_set_background_color "#000000",
    Call.gtk_widget_show Widget.view,
    Call.gtk_container_add Widget.view,
    Call.g_signal_connect_swapped Widget.view "first-frame",
    Call.gtk_widget_realize Widget.view,
    Call.fl_register_plugins,
    Call.gtk_widget_grab_focus Widget.view])

/-- The function `my_application_activate`: the window it builds and every call
it makes, in order. -/
def my_application_activate (env : Env) (self : MyApplication) : GtkWindow × List Call :=
  let w0 := gtk_application_window_new
  let chrome := activate_chrome env w0
  let icon := activate_window_icon env chrome.1
  let view := activate_view self icon.1
  (view.1, [Call.gtk_application_window_new] ++ chrome.2 ++ icon.2 ++ view.2)

/-! ## `my_application_local_command_line` -/

/-- What `my_application_local_command_line` leaves behind. -/
structure LocalCommandLine where
  /-- The application object afterwards. -/
  self : MyApplication
  /-- The value stored through `exit_status`. -/
  exit_status : Int
  /-- The returned `gboolean`. -/
  handled : Bool
  /-- The window built by the activation, if the application was activated. -/
  window : Option GtkWindow
  calls : List Call
  deriving DecidableEq

/-- The function `my_application_local_command_line`, on the strings of the
`NULL`-terminated vector `*arguments`.  `g_application_activate` runs the
`activate` handler installed by `my_application_class_init`, which is
`my_application_activate`.  The result is `none` where the C code reads
outside an object: `*arguments + 1` on a vector with no string, and
`error->message` when registration fails without setting the error. -/
def my_application_local_command_line (env : Env) (self : MyApplication)
    (arguments : List String) : Option LocalCommandLine :=
  match arguments with
  | [] => none
  | _ :: rest =>
    let self1 : MyApplication := { self with dart_entrypoint_arguments := some rest }
    let reg := env.g_application_register
    if !reg.ok then
      match reg.error with
      | none => none
      | some message =>
        some
          { self := self1
            exit_status := 1
            handled := true
            window := none
            calls := [Call.g_strdupv rest, Call.g_application_register,
                      Call.g_warning "Failed to register: %s" [message]] }
    else
      let act := my_application_activate env self1
      some
        { self := self1
          exit_status := 0
          handled := true
          window := some act.1
          calls := [Call.g_strdupv rest, Call.g_application_register,
                    Call.g_application_activate] ++ act.2 }

/-! ## `my_application_new` -/

/-- What `my_application_new` leaves behind. -/
structure NewApplication where
  /-- The image installed with `gtk_window_set_default_icon`, if any. -/
  default_icon : Option GdkPixbuf
  self : MyApplication
  calls : List Call
  deriving DecidableEq

/-- Lines 216-228: the themed application icon. -/
def new_theme_icon (env : Env) : Option GdkPixbuf × List Call :=
  if env.gtk_icon_theme_get_default then
    if env.gtk_icon_theme_load_icon env.APPLICATION_ID 256 then
      (some (GdkPixbuf.fromTheme env.APPLICATION_ID 256),
       [Call.gtk_icon_theme_get_default,
        Call.gtk_icon_theme_load_icon env.APPLICATION_ID 256,
        Call.gtk_window_set_default_icon (GdkPixbuf.fromTheme env.APPLICATION_ID 256),
        Call.g_object_unref])
    else
      (none,
       [Call.gtk_icon_theme_get_default,
        Call.gtk_icon_theme_load_icon env.APPLICATION_ID 256,
        Call.g_clear_error])
  else (none, [Call.gtk_icon_theme_get_default])

/-- Lines 230-244: the file fallback, entered when `icon_theme` is `NULL`. -/
def new_fallback_icon (env : Env) (current : Option GdkPixbuf) : Option GdkPixbuf × List Call :=
  if !env.gtk_icon_theme_get_default then
    let loaded : Option GdkPixbuf × List Call :=
      if env.g_file_test "runner/icon.png" then
        (if env.gdk_pixbuf_new_from_file "runner/icon.png"
          then some (GdkPixbuf.fromFile "runner/icon.png") else none,
         [Call.g_file_test "runner/icon.png", Call.gdk_pixbuf_new_from_file "runner/icon.png"])
      else if env.g_file_test "icon.png" then
        (if env.gdk_pixbuf_new_from_file "icon.png"
          then some (GdkPixbuf.fromFile "icon.png") else none,
         [Call.g_file_test "runner/icon.png", Call.g_file_test "icon.png",
          Call.gdk_pixbuf_new_from_file "icon.png"])
      else (none, [Call.g_file_test "runner/icon.png", Call.g_file_test "icon.png"])
    match loaded.1 with
    | some fallback_icon =>
      (some fallback_icon,
       loaded.2 ++ [Call.gtk_window_set_default_icon fallback_icon, Call.g_object_unref])
    | none => (current, loaded.2)
  else (current, [])

/-- The function `my_application_new`. -/
def my_application_new (env : Env) : NewApplication :=
  let themed := new_theme_icon env
  let fallback := new_fallback_icon env themed.1
  { default_icon := fallback.1
    self := { dart_entrypoint_arguments := none }
    calls := [Call.g_log_set_handler "Gtk" G_LOG_LEVEL_CRITICAL,
              Call.g_set_prgname env.APPLICATION_ID] ++ themed.2 ++ fallback.2 ++
             [Call.g_object_new env.APPLICATION_ID] }

/-! ## Reading a record of calls -/

/-- The file names given to `g_file_test`, in call order. -/
def file_tests : List Call → List String
  | [] => []
  | Call.g_file_test f :: cs => f :: file_tests cs
  | _ :: cs => file_tests cs

/-- The file names given to `gtk_window_set_icon_from_file`, in call order. -/
def icon_loads : List Call → List String
  | [] => []
  | Call.gtk_window_set_icon_from_file f :: cs => f :: icon_loads cs
  | _ :: cs => icon_loads cs

/-- The diagnostics emitted with `g_warning` (format and arguments), in call
order. -/
def warnings : List Call → List (String × List String)
  | [] => []
  | Call.g_warning format args :: cs => (format, args) :: warnings cs
  | _ :: cs => warnings cs

/-- How many times `g_application_activate` is called. -/
def activations : List Call → Nat
  | [] => 0
  | Call.g_application_activate :: cs => activations cs + 1
  | _ :: cs => activations cs

/-- The diagnostic for the case that no icon file was found. -/
def no_usable_icon_warning : String × List String :=
  ("Failed to set window icon: no usable icon file found", [])

/-! ## The icon resolver as the specification words it -/

/-- The four candidate paths of the specification for an executable directory
`dir`, highest priority first. -/
def candidates (dir : String) : List String :=
  [dir ++ "/data/flutter_assets/assets/taskbar_icon_noalpha.png",
   dir ++ "/data/flutter_assets/icon.png",
   "runner/icon.png",
   "icon.png"]

/-- The candidates the specification has the resolver attempt: all four when
the executable directory is known, the two working-directory ones otherwise. -/
def attempted_candidates (env : Env) : List String :=
  if (exe_dir env).1.data.isEmpty then ["runner/icon.png", "icon.png"]
  else candidates (exe_dir env).1

/-- Resolution over an ordered list of candidates as the specification
describes it: an absent candidate is skipped, the first one present is handed
to the loader, and nothing after it is looked at. -/
def resolve_over (env : Env) (window : GtkWindow) : List String → List Call → IconAttempt
  | [], before => { set_ok := false, error := none, window := window, calls := before }
  | c :: cs, before =>
    if env.g_file_test c then
      set_icon_from_file env window c (before ++ [Call.g_file_test c])
    else
      resolve_over env window cs (before ++ [Call.g_file_test c])

/-- The candidate the specification selects: the first attempted one that
exists. -/
def selected_candidate (env : Env) : Option String :=
  (attempted_candidates env).find? env.g_file_test

/-- Does the windowing report an X11 screen whose window manager is not named
exactly "GNOME Shell" (a missing name included). -/
def x11_without_gnome_shell (env : Env) : Prop :=
  ∃ s, env.gtk_window_get_screen = some s ∧ s.is_x11 = true ∧ s.wm_name ≠ some "GNOME Shell"

/-! ## Example worlds -/

/-- A world in which the executable is `/opt/clash/clash`, the screen is an X11
screen managed by GNOME Shell, exactly the files of `present` exist, the files
of `corrupt` fail to decode, no icon theme is available and registration
succeeds. -/
def example_env (present corrupt : List String) : Env :=
  { GDK_WINDOWING_X11 := true
    APPLICATION_ID := "com.example.clash"
    gtk_window_get_screen := some ⟨true, some "GNOME Shell"⟩
    readlink := fun _ _ => ⟨16, "/opt/clash/clash"⟩
    g_path_get_dirname := fun _ => some "/opt/clash"
    g_file_test := fun f => present.contains f
    gtk_window_set_icon_from_file := fun f =>
      if corrupt.contains f then ⟨false, some "unrecognized image file format"⟩
      else ⟨true, none⟩
    g_application_register := ⟨true, none⟩
    gtk_icon_theme_get_default := false
    gtk_icon_theme_load_icon := fun _ _ => false
    gdk_pixbuf_new_from_file := fun f => !corrupt.contains f }

/-- The example world, except that `readlink` fails. -/
def example_env_without_exe (present corrupt : List String) : Env :=
  { example_env present corrupt with readlink := fun _ _ => ⟨-1, ""⟩ }

/-- The example world with `runner/icon.png` present and valid, except that a
default icon theme is available and has no icon for the application. -/
def example_env_theme_without_icon : Env :=
  { example_env ["runner/icon.png"] [] with
    gtk_icon_theme_get_default := true
    gtk_icon_theme_load_icon := fun _ _ => false }

/-! ## Facts about the string helpers -/

theorem strcmp_eq_zero_iff (a b : List Char) : strcmp a b = 0 ↔ a = b := by
  induction a generalizing b with
  | nil => cases b <;> simp [strcmp]
  | cons x xs ih =>
    cases b with
    | nil => simp [strcmp]
    | cons y ys =>
      by_cases hxy : x = y
      · simp [strcmp, hxy, ih]
      · by_cases hlt : x.toNat < y.toNat <;> simp [strcmp, hxy, hlt]

theorem g_strcmp0_eq_zero_iff (a b : Option String) : g_strcmp0 a b = 0 ↔ a = b := by
  cases a with
  | none => cases b <;> simp [g_strcmp0]
  | some x =>
    cases b with
    | none => simp [g_strcmp0]
    | some y => simp [g_strcmp0, strcmp_eq_zero_iff, String.ext_iff]

theorem startsWith_iff (s p : List Char) : startsWith s p = true ↔ p <+: s := by
  induction s generalizing p with
  | nil => cases p <;> simp [startsWith]
  | cons c s ih =>
    cases p with
    | nil => simp [startsWith]
    | cons d p =>
      simp only [startsWith, Bool.and_eq_true, beq_iff_eq, ih, List.cons_prefix_cons]
      constructor
      · rintro ⟨h1, h2⟩; exact ⟨h1.symm, h2⟩
      · rintro ⟨h1, h2⟩; exact ⟨h1.symm, h2⟩

theorem strstr_isSome_iff (hay needle : List Char) :
    (strstr hay needle).isSome = true ↔ needle <:+: hay := by
  induction hay with
  | nil =>
    cases needle <;> simp [strstr]
  | cons c hay ih =>
    by_cases hp : startsWith (c :: hay) needle = true
    · simp only [strstr, hp, if_true, Option.isSome_some, true_iff]
      exact ((startsWith_iff _ _).1 hp).isInfix
    · have hnp : ¬ needle <+: c :: hay := fun h => hp ((startsWith_iff _ _).2 h)
      simp only [strstr, hp, List.infix_cons_iff]
      simp [hnp, ih]

/-! ## Facts about reading a record of calls -/

theorem file_tests_append (a b : List Call) : file_tests (a ++ b) = file_tests a ++ file_tests b := by
  induction a with
  | nil => rfl
  | cons c cs ih => cases c <;> simp [file_tests, ih]

theorem icon_loads_append (a b : List Call) : icon_loads (a ++ b) = icon_loads a ++ icon_loads b := by
  induction a with
  | nil => rfl
  | cons c cs ih => cases c <;> simp [icon_loads, ih]

theorem warnings_append (a b : List Call) : warnings (a ++ b) = warnings a ++ warnings b := by
  induction a with
  | nil => rfl
  | cons c cs ih => cases c <;> simp [warnings, ih]

theorem activations_append (a b : List Call) :
    activations (a ++ b) = activations a + activations b := by
  induction a with
  | nil => simp [activations]
  | cons c cs ih => cases c <;> simp [activations, ih]; omega

/-! ## The icon block follows the specified resolver -/

theorem data_isEmpty_eq_false {s : String} (h : s ≠ "") : s.data.isEmpty = false := by
  cases hs : s.data with
  | nil => exact absurd (String.ext hs) h
  | cons c cs => rfl

theorem append_data_isEmpty (d s : String) (h : s ≠ "") : (d ++ s).data.isEmpty = false := by
  have := data_isEmpty_eq_false h
  cases hs : s.data with
  | nil => simp [hs] at this
  | cons c cs => cases hd : d.data <;> simp [String.data_append, hs, hd]

theorem data_isEmpty_empty : ("" : String).data.isEmpty = true := rfl

theorem icon_attempt_eq_resolve_over (env : Env) (window : GtkWindow) :
    icon_attempt env window (candidate1 (exe_dir env).1) (candidate2 (exe_dir env).1) =
      resolve_over env window (attempted_candidates env) [] := by
  cases hd : (exe_dir env).1.data.isEmpty
  · have h1 := append_data_isEmpty (exe_dir env).1
      "/data/flutter_assets/assets/taskbar_icon_noalpha.png" (by decide)
    have h2 := append_data_isEmpty (exe_dir env).1 "/data/flutter_assets/icon.png" (by decide)
    simp only [icon_attempt, candidate1, candidate2, attempted_candidates, candidates, hd,
      resolve_over, h1, h2, fallback1, fallback2, Bool.not_false, Bool.true_and,
      Bool.false_eq_true, if_false, List.nil_append, List.cons_append, List.append_assoc]
  · simp only [icon_attempt, candidate1, candidate2, attempted_candidates, hd,
      resolve_over, fallback1, fallback2, if_true, data_isEmpty_empty, List.isEmpty_nil, Bool.not_true,
      Bool.false_and, Bool.false_eq_true, if_false, List.nil_append, List.cons_append,
      List.append_nil]

/-! ## Facts about the specified resolver -/

theorem resolve_over_calls (env : Env) (window : GtkWindow) (cs : List String)
    (before : List Call) :
    (resolve_over env window cs before).calls =
      before ++ (cs.takeWhile fun c => !env.g_file_test c).map Call.g_file_test ++
        match cs.find? env.g_file_test with
        | some p => [Call.g_file_test p, Call.gtk_window_set_icon_from_file p]
        | none => [] := by
  induction cs generalizing before with
  | nil => simp [resolve_over]
  | cons c cs ih =>
    cases hc : env.g_file_test c
    · simp [resolve_over, hc, ih, List.takeWhile, List.find?]
    · simp [resolve_over, hc, set_icon_from_file, List.takeWhile, List.find?]

theorem resolve_over_none (env : Env) (window : GtkWindow) (cs : List String)
    (before : List Call) (h : cs.find? env.g_file_test = none) :
    resolve_over env window cs before =
      { set_ok := false, error := none, window := window,
        calls := before ++ cs.map Call.g_file_test } := by
  induction cs generalizing before with
  | nil => simp [resolve_over]
  | cons c cs ih =>
    cases hc : env.g_file_test c
    · have h2 : cs.find? env.g_file_test = none := by simpa [List.find?, hc] using h
      simp [resolve_over, hc, ih _ h2]
    · simp [List.find?, hc] at h

theorem resolve_over_some (env : Env) (window : GtkWindow) (cs : List String)
    (before : List Call) (p : String) (h : cs.find? env.g_file_test = some p) :
    (resolve_over env window cs before).set_ok = (env.gtk_window_set_icon_from_file p).ok ∧
    (resolve_over env window cs before).error = (env.gtk_window_set_icon_from_file p).error ∧
    (resolve_over env window cs before).window =
      if (env.gtk_window_set_icon_from_file p).ok
      then { window with icon := some (GdkPixbuf.fromFile p) } else window := by
  induction cs generalizing before with
  | nil => simp at h
  | cons c cs ih =>
    cases hc : env.g_file_test c
    · have h2 : cs.find? env.g_file_test = some p := by simpa [List.find?, hc] using h
      simpa [resolve_over, hc] using ih _ h2
    · have hp : c = p := by simpa [List.find?, hc] using h
      subst hp
      simp [resolve_over, hc, set_icon_from_file]

theorem activate_window_icon_eq (env : Env) (window : GtkWindow) :
    activate_window_icon env window =
      ((resolve_over env window (attempted_candidates env) []).window,
       (exe_dir env).2 ++ (resolve_over env window (attempted_candidates env) []).calls ++
         icon_report (resolve_over env window (attempted_candidates env) [])) := by
  simp only [activate_window_icon, icon_attempt_eq_resolve_over]

theorem exe_dir_calls (env : Env) :
    file_tests (exe_dir env).2 = [] ∧ icon_loads (exe_dir env).2 = [] ∧
    warnings (exe_dir env).2 = [] ∧ activations (exe_dir env).2 = 0 := by
  simp only [exe_dir]
  split_ifs
  · split <;> simp [file_tests, icon_loads, warnings, activations]
  · simp [file_tests, icon_loads, warnings, activations]

theorem file_tests_map (l : List String) : file_tests (l.map Call.g_file_test) = l := by
  induction l with
  | nil => rfl
  | cons c cs ih => simp [file_tests, ih]

theorem icon_loads_map (l : List String) : icon_loads (l.map Call.g_file_test) = [] := by
  induction l with
  | nil => rfl
  | cons c cs ih => simp [icon_loads, ih]

theorem warnings_map (l : List String) : warnings (l.map Call.g_file_test) = [] := by
  induction l with
  | nil => rfl
  | cons c cs ih => simp [warnings, ih]

theorem activations_map (l : List String) : activations (l.map Call.g_file_test) = 0 := by
  induction l with
  | nil => rfl
  | cons c cs ih => simp [activations, ih]

/-- The calls the icon block makes after looking up the executable: the tests
of the absent candidates before the selected one, then the test and the load
of the selected one, then the report. -/
theorem activate_window_icon_selected (env : Env) (window : GtkWindow) (p : String)
    (h : selected_candidate env = some p) :
    (activate_window_icon env window).1 =
      (if (env.gtk_window_set_icon_from_file p).ok
       then { window with icon := some (GdkPixbuf.fromFile p) } else window) ∧
    (activate_window_icon env window).2 =
      (exe_dir env).2 ++
        ((attempted_candidates env).takeWhile fun c => !env.g_file_test c).map Call.g_file_test ++
        [Call.g_file_test p, Call.gtk_window_set_icon_from_file p] ++
        (if !(env.gtk_window_set_icon_from_file p).ok then
          match (env.gtk_window_set_icon_from_file p).error with
          | some message =>
            [Call.g_warning "Failed to set window icon: %s" [message], Call.g_clear_error]
          | none => [Call.g_warning "Failed to set window icon: no usable icon file found" []]
        else
          match (env.gtk_window_set_icon_from_file p).error with
          | some _ => [Call.g_clear_error]
          | none => []) := by
  unfold selected_candidate at h
  obtain ⟨h1, h2, h3⟩ := resolve_over_some env window (attempted_candidates env) [] p h
  have hc := resolve_over_calls env window (attempted_candidates env) []
  rw [h] at hc
  rw [activate_window_icon_eq]
  refine ⟨h3, ?_⟩
  simp only [icon_report, h1, h2, hc, List.nil_append, List.append_assoc]

/-- The icon block when no attempted candidate exists. -/
theorem activate_window_icon_none (env : Env) (window : GtkWindow)
    (h : selected_candidate env = none) :
    activate_window_icon env window =
      (window,
       (exe_dir env).2 ++ (attempted_candidates env).map Call.g_file_test ++
         [Call.g_warning "Failed to set window icon: no usable icon file found" []]) := by
  unfold selected_candidate at h
  rw [activate_window_icon_eq, resolve_over_none env window _ [] h]
  simp [icon_report]

/-! ## The whole activation -/

theorem activate_chrome_calls (env : Env) (window : GtkWindow) :
    file_tests (activate_chrome env window).2 = [] ∧
    icon_loads (activate_chrome env window).2 = [] ∧
    warnings (activate_chrome env window).2 = [] ∧
    activations (activate_chrome env window).2 = 0 ∧
    (activate_chrome env window).1.icon = window.icon := by
  simp only [activate_chrome, use_header_bar]
  split_ifs <;> (try split) <;> (try split_ifs) <;>
    simp [file_tests, icon_loads, warnings, activations]

theorem activate_view_calls (self : MyApplication) (window : GtkWindow) :
    file_tests (activate_view self window).2 = [] ∧
    icon_loads (activate_view self window).2 = [] ∧
    warnings (activate_view self window).2 = [] ∧
    activations (activate_view self window).2 = 0 ∧
    (activate_view self window).1.icon = window.icon := by
  simp [activate_view, file_tests, icon_loads, warnings, activations]

theorem my_application_activate_observed (env : Env) (self : MyApplication) :
    (my_application_activate env self).1.icon =
      (activate_window_icon env (activate_chrome env gtk_application_window_new).1).1.icon ∧
    file_tests (my_application_activate env self).2 =
      file_tests (activate_window_icon env (activate_chrome env gtk_application_window_new).1).2 ∧
    icon_loads (my_application_activate env self).2 =
      icon_loads (activate_window_icon env (activate_chrome env gtk_application_window_new).1).2 ∧
    warnings (my_application_activate env self).2 =
      warnings (activate_window_icon env (activate_chrome env gtk_application_window_new).1).2 := by
  obtain ⟨c1, c2, c3, _, _⟩ := activate_chrome_calls env gtk_application_window_new
  obtain ⟨v1, v2, v3, _, v5⟩ := activate_view_calls self
    (activate_window_icon env (activate_chrome env gtk_application_window_new).1).1
  simp only [my_application_activate]
  refine ⟨v5, ?_, ?_, ?_⟩
  · simp [file_tests_append, c1, v1, file_tests]
  · simp [icon_loads_append, c2, v2, icon_loads]
  · simp [warnings_append, c3, v3, warnings]

/-- What an activation shows when a candidate is selected. -/
theorem my_application_activate_selected (env : Env) (self : MyApplication) (p : String)
    (h : selected_candidate env = some p) :
    (my_application_activate env self).1.icon =
      (if (env.gtk_window_set_icon_from_file p).ok then some (GdkPixbuf.fromFile p) else none) ∧
    file_tests (my_application_activate env self).2 =
      ((attempted_candidates env).takeWhile fun c => !env.g_file_test c) ++ [p] ∧
    icon_loads (my_application_activate env self).2 = [p] ∧
    warnings (my_application_activate env self).2 =
      (if (env.gtk_window_set_icon_from_file p).ok then []
       else match (env.gtk_window_set_icon_from_file p).error with
         | some message => [("Failed to set window icon: %s", [message])]
         | none => [no_usable_icon_warning]) := by
  obtain ⟨o1, o2, o3, o4⟩ := my_application_activate_observed env self
  obtain ⟨s1, s2⟩ := activate_window_icon_selected env
    (activate_chrome env gtk_application_window_new).1 p h
  obtain ⟨e1, e2, e3, _⟩ := exe_dir_calls env
  obtain ⟨_, _, _, _, c5⟩ := activate_chrome_calls env gtk_application_window_new
  rw [o1, o2, o3, o4, s1, s2]
  refine ⟨?_, ?_, ?_, ?_⟩
  · cases (env.gtk_window_set_icon_from_file p).ok
    · simpa [gtk_application_window_new] using c5
    · simp
  · cases (env.gtk_window_set_icon_from_file p).ok <;>
      cases (env.gtk_window_set_icon_from_file p).error <;>
      simp [file_tests_append, e1, file_tests_map, file_tests]
  · cases (env.gtk_window_set_icon_from_file p).ok <;>
      cases (env.gtk_window_set_icon_from_file p).error <;>
      simp [icon_loads_append, e2, icon_loads_map, icon_loads]
  · cases (env.gtk_window_set_icon_from_file p).ok <;>
      cases (env.gtk_window_set_icon_from_file p).error <;>
      simp [warnings_append, e3, warnings_map, warnings, no_usable_icon_warning]

/-- What an activation shows when no attempted candidate exists. -/
theorem my_application_activate_none (env : Env) (self : MyApplication)
    (h : selected_candidate env = none) :
    (my_application_activate env self).1.icon = none ∧
    file_tests (my_application_activate env self).2 = attempted_candidates env ∧
    icon_loads (my_application_activate env self).2 = [] ∧
    warnings (my_application_activate env self).2 = [no_usable_icon_warning] := by
  obtain ⟨o1, o2, o3, o4⟩ := my_application_activate_observed env self
  obtain ⟨e1, e2, e3, _⟩ := exe_dir_calls env
  obtain ⟨_, _, _, _, c5⟩ := activate_chrome_calls env gtk_application_window_new
  rw [o1, o2, o3, o4, activate_window_icon_none env _ h]
  refine ⟨?_, ?_, ?_, ?_⟩
  · simpa [gtk_application_window_new] using c5
  · simp [file_tests_append, e1, file_tests_map, file_tests]
  · simp [icon_loads_append, e2, icon_loads_map, icon_loads]
  · simp [warnings_append, e3, warnings_map, warnings, no_usable_icon_warning]

/-! ## Window icon resolution -/

theorem selected_candidate_of_exe_dir (env : Env) (dir : String)
    (hdir : (exe_dir env).1 = dir) (havail : dir ≠ "") :
    attempted_candidates env = candidates dir ∧
    selected_candidate env = (candidates dir).find? env.g_file_test := by
  have h : attempted_candidates env = candidates dir := by
    simp [attempted_candidates, hdir, data_isEmpty_eq_false havail]
  exact ⟨h, by rw [selected_candidate, h]⟩

/-- C1. When the executable directory is available, the only file handed to
the icon loader during activation is the first existing candidate in the order
bundle `taskbar_icon_noalpha.png`, bundle `icon.png`, `runner/icon.png`,
`icon.png`.  If that load succeeds, the window icon is that file, no warning is
emitted, and the files tested for existence are exactly the absent candidates
before it and the file itself.  In particular, when exactly one candidate
exists and it loads, the window icon is that candidate. -/
theorem window_icon_highest_priority (env : Env) (self : MyApplication) (dir : String)
    (hdir : (exe_dir env).1 = dir) (havail : dir ≠ "") :
    icon_loads (my_application_activate env self).2 =
      ((candidates dir).find? env.g_file_test).toList ∧
    (∀ p, (candidates dir).find? env.g_file_test = some p →
      (env.gtk_window_set_icon_from_file p).ok = true →
        (my_application_activate env self).1.icon = some (GdkPixbuf.fromFile p) ∧
        warnings (my_application_activate env self).2 = [] ∧
        icon_loads (my_application_activate env self).2 = [p] ∧
        file_tests (my_application_activate env self).2 =
          ((candidates dir).takeWhile fun c => !env.g_file_test c) ++ [p]) ∧
    (∀ p ∈ candidates dir,
      (∀ q ∈ candidates dir, env.g_file_test q = true ↔ q = p) →
      (env.gtk_window_set_icon_from_file p).ok = true →
        (my_application_activate env self).1.icon = some (GdkPixbuf.fromFile p)) := by
  obtain ⟨hatt, hsel⟩ := selected_candidate_of_exe_dir env dir hdir havail
  have key : ∀ p, (candidates dir).find? env.g_file_test = some p →
      (env.gtk_window_set_icon_from_file p).ok = true →
        (my_application_activate env self).1.icon = some (GdkPixbuf.fromFile p) ∧
        warnings (my_application_activate env self).2 = [] ∧
        icon_loads (my_application_activate env self).2 = [p] ∧
        file_tests (my_application_activate env self).2 =
          ((candidates dir).takeWhile fun c => !env.g_file_test c) ++ [p] := by
    intro p hp hok
    obtain ⟨a1, a2, a3, a4⟩ := my_application_activate_selected env self p (hsel.trans hp)
    rw [hatt] at a2
    simp only [hok, if_true] at a1 a4
    exact ⟨a1, a4, a3, a2⟩
  refine ⟨?_, key, ?_⟩
  · cases hf : (candidates dir).find? env.g_file_test with
    | none =>
      have := (my_application_activate_none env self (hsel.trans hf)).2.2.1
      simpa using this
    | some p =>
      have := (my_application_activate_selected env self p (hsel.trans hf)).2.2.1
      simpa using this
  · intro p hp honly hok
    have hex : env.g_file_test p = true := (honly p hp).2 rfl
    cases hf : (candidates dir).find? env.g_file_test with
    | none =>
      have := List.find?_eq_none.1 hf p hp
      exact absurd hex this
    | some q =>
      have hq : q = p := (honly q (List.mem_of_find?_eq_some hf)).1 (List.find?_some hf)
      subst hq
      exact (key q hf hok).1

/-- C1 at a concrete world: only `runner/icon.png` exists and decodes, and it
becomes the window icon. -/
theorem window_icon_highest_priority_witness :
    (my_application_activate (example_env ["runner/icon.png"] []) ⟨none⟩).1.icon =
      some (GdkPixbuf.fromFile "runner/icon.png") :=
  (window_icon_highest_priority (example_env ["runner/icon.png"] []) ⟨none⟩ "/opt/clash"
    (by decide) (by decide)).2.2 "runner/icon.png" (by decide) (by decide) (by decide)

/-- C2. When none of the attempted candidates exists (all four absent, or the
executable directory unavailable and both working-directory files absent), an
activation never calls the icon loader, leaves the window without an icon,
emits exactly one diagnostic, the "no usable icon file found" warning, and
goes on: right after the warning the Flutter view is created, configured and
added to the window. -/
theorem no_candidate_no_icon (env : Env) (self : MyApplication)
    (habsent : ∀ c ∈ attempted_candidates env, env.g_file_test c = false) :
    icon_loads (my_application_activate env self).2 = [] ∧
    (my_application_activate env self).1.icon = none ∧
    warnings (my_application_activate env self).2 = [no_usable_icon_warning] ∧
    (∃ view, (my_application_activate env self).1.child = some view ∧
      view.dart_entrypoint_arguments = self.dart_entrypoint_arguments ∧
      view.realized = true) ∧
    (∃ before, (my_application_activate env self).2 =
      before ++ [Call.g_warning "Failed to set window icon: no usable icon file found" []] ++
        (activate_view self gtk_application_window_new).2) := by
  have hsel : selected_candidate env = none := by
    unfold selected_candidate
    rw [List.find?_eq_none]
    intro c hc
    simp [habsent c hc]
  obtain ⟨a1, _, a3, a4⟩ := my_application_activate_none env self hsel
  refine ⟨a3, a1, a4, ⟨_, rfl, rfl, rfl⟩, ?_⟩
  refine ⟨[Call.gtk_application_window_new] ++
    (activate_chrome env gtk_application_window_new).2 ++ (exe_dir env).2 ++
    (attempted_candidates env).map Call.g_file_test, ?_⟩
  simp only [my_application_activate, activate_window_icon_none env _ hsel]
  simp [activate_view]

/-- C2 at a concrete world: no icon file exists anywhere. -/
theorem no_candidate_no_icon_witness :
    warnings (my_application_activate (example_env [] []) ⟨some ["--flag"]⟩).2 =
      [no_usable_icon_warning] ∧
    (my_application_activate (example_env [] []) ⟨some ["--flag"]⟩).1.icon = none :=
  ⟨(no_candidate_no_icon (example_env [] []) ⟨some ["--flag"]⟩ (by decide)).2.2.1,
   (no_candidate_no_icon (example_env [] []) ⟨some ["--flag"]⟩ (by decide)).2.1⟩

theorem attempted_candidates_without_exe (env : Env)
    (hlen : (env.readlink "/proc/self/exe" PATH_MAX).len ≤ 0) :
    exe_dir env = ("", [Call.readlink "/proc/self/exe" PATH_MAX]) ∧
    attempted_candidates env = ["runner/icon.png", "icon.png"] := by
  have h : exe_dir env = ("", [Call.readlink "/proc/self/exe" PATH_MAX]) := by
    simp only [exe_dir]
    rw [if_neg (by omega)]
  refine ⟨h, ?_⟩
  simp only [attempted_candidates, h, data_isEmpty_empty, List.isEmpty_nil, if_true]

/-- C3. When `readlink` of `/proc/self/exe` returns a length that is not
positive, an activation tests and loads no file other than `runner/icon.png`
and `icon.png`, whatever exists on disk, and the icon block does exactly what
resolution over the two candidates `runner/icon.png`, `icon.png` does: same
window, same calls after the failed `readlink`, same report. -/
theorem exe_lookup_failure_skips_bundle (env : Env) (self : MyApplication)
    (window : GtkWindow)
    (hlen : (env.readlink "/proc/self/exe" PATH_MAX).len ≤ 0) :
    (∀ f ∈ file_tests (my_application_activate env self).2 ++
        icon_loads (my_application_activate env self).2,
      f = "runner/icon.png" ∨ f = "icon.png") ∧
    activate_window_icon env window =
      ((resolve_over env window ["runner/icon.png", "icon.png"] []).window,
       [Call.readlink "/proc/self/exe" PATH_MAX] ++
         (resolve_over env window ["runner/icon.png", "icon.png"] []).calls ++
         icon_report (resolve_over env window ["runner/icon.png", "icon.png"] [])) := by
  obtain ⟨hexe, hatt⟩ := attempted_candidates_without_exe env hlen
  constructor
  · intro f hf
    have hmem : f ∈ attempted_candidates env := by
      cases hs : selected_candidate env with
      | none =>
        obtain ⟨_, a2, a3, _⟩ := my_application_activate_none env self hs
        rw [a2, a3] at hf
        simpa using hf
      | some p =>
        obtain ⟨_, a2, a3, _⟩ := my_application_activate_selected env self p hs
        rw [a2, a3] at hf
        have hp : p ∈ attempted_candidates env := List.mem_of_find?_eq_some hs
        rcases List.mem_append.1 hf with h | h
        · rcases List.mem_append.1 h with h | h
          · exact (List.takeWhile_prefix _).sublist.subset h
          · rw [List.mem_singleton.1 h]; exact hp
        · rw [List.mem_singleton.1 h]; exact hp
    rw [hatt] at hmem
    simpa using hmem
  · rw [activate_window_icon_eq, hatt, hexe]

/-- C3 at a concrete world: the bundle icons exist but the executable path is
unknown, so only the working-directory files are tested. -/
theorem exe_lookup_failure_skips_bundle_witness :
    file_tests (my_application_activate
      (example_env_without_exe
        ["/opt/clash/data/flutter_assets/icon.png", "icon.png"] []) ⟨none⟩).2 =
      ["runner/icon.png", "icon.png"] ∧
    ∀ f ∈ file_tests (my_application_activate
        (example_env_without_exe
          ["/opt/clash/data/flutter_assets/icon.png", "icon.png"] []) ⟨none⟩).2 ++
      icon_loads (my_application_activate
        (example_env_without_exe
          ["/opt/clash/data/flutter_assets/icon.png", "icon.png"] []) ⟨none⟩).2,
      f = "runner/icon.png" ∨ f = "icon.png" :=
  ⟨by decide,
   (exe_lookup_failure_skips_bundle
    (example_env_without_exe ["/opt/clash/data/flutter_assets/icon.png", "icon.png"] [])
    ⟨none⟩ gtk_application_window_new (by decide)).1⟩

/-- C4. Let the icon loader follow the GLib error convention (a call that
returns `FALSE` leaves an error).  Whenever the selected candidate exists and
the loader reports failure, an activation sets no icon and emits exactly one
diagnostic, which carries the message of the loader error and differs from the
no-candidate diagnostic; and the "no usable icon file found" warning is
emitted only when no attempted candidate exists. -/
theorem load_failure_diagnostic (env : Env) (self : MyApplication)
    (hgerror : ∀ f, (env.gtk_window_set_icon_from_file f).ok = false →
      (env.gtk_window_set_icon_from_file f).error ≠ none) :
    (∀ p, selected_candidate env = some p →
      (env.gtk_window_set_icon_from_file p).ok = false →
        (my_application_activate env self).1.icon = none ∧
        ∃ message, (env.gtk_window_set_icon_from_file p).error = some message ∧
          warnings (my_application_activate env self).2 =
            [("Failed to set window icon: %s", [message])] ∧
          ("Failed to set window icon: %s", [message]) ≠ no_usable_icon_warning) ∧
    (no_usable_icon_warning ∈ warnings (my_application_activate env self).2 →
      ∀ c ∈ attempted_candidates env, env.g_file_test c = false) := by
  constructor
  · intro p hsel hfail
    obtain ⟨a1, _, _, a4⟩ := my_application_activate_selected env self p hsel
    cases herr : (env.gtk_window_set_icon_from_file p).error with
    | none => exact absurd herr (hgerror p hfail)
    | some message =>
      refine ⟨by simpa [hfail] using a1, message, rfl, by simpa [hfail, herr] using a4, ?_⟩
      simp [no_usable_icon_warning]
  · intro hmem
    cases hsel : selected_candidate env with
    | none =>
      intro c hc
      have := List.find?_eq_none.1 hsel c hc
      simpa using this
    | some p =>
      exfalso
      obtain ⟨_, _, _, a4⟩ := my_application_activate_selected env self p hsel
      rw [a4] at hmem
      cases hok : (env.gtk_window_set_icon_from_file p).ok with
      | true => simp [hok] at hmem
      | false =>
        cases herr : (env.gtk_window_set_icon_from_file p).error with
        | none => exact absurd herr (hgerror p hok)
        | some message => simp [hok, herr, no_usable_icon_warning] at hmem

/-- C4 at a concrete world: `runner/icon.png` exists but does not decode. -/
theorem load_failure_diagnostic_witness :
    (my_application_activate
      (example_env ["runner/icon.png"] ["runner/icon.png"]) ⟨none⟩).1.icon = none ∧
    ∃ message,
      ((example_env ["runner/icon.png"] ["runner/icon.png"]).gtk_window_set_icon_from_file
        "runner/icon.png").error = some message ∧
      warnings (my_application_activate
        (example_env ["runner/icon.png"] ["runner/icon.png"]) ⟨none⟩).2 =
        [("Failed to set window icon: %s", [message])] ∧
      ("Failed to set window icon: %s", [message]) ≠ no_usable_icon_warning :=
  (load_failure_diagnostic (example_env ["runner/icon.png"] ["runner/icon.png"]) ⟨none⟩
    (by intro f; simp only [example_env]; split_ifs <;> simp)).1
    "runner/icon.png" (by decide) (by decide)

/-- C7. The icon loader is called at most once per activation, and only on
the first attempted candidate that exists.  When that candidate fails to load,
no icon is set and the files tested for existence are exactly the absent
candidates before it and the file itself: no later candidate is tested or
loaded, whether or not it exists and would decode. -/
theorem stop_on_corrupt (env : Env) (self : MyApplication) :
    icon_loads (my_application_activate env self).2 = (selected_candidate env).toList ∧
    (∀ p, selected_candidate env = some p →
      (env.gtk_window_set_icon_from_file p).ok = false →
        (my_application_activate env self).1.icon = none ∧
        icon_loads (my_application_activate env self).2 = [p] ∧
        file_tests (my_application_activate env self).2 =
          ((attempted_candidates env).takeWhile fun c => !env.g_file_test c) ++ [p]) := by
  constructor
  · cases hsel : selected_candidate env with
    | none => simpa using (my_application_activate_none env self hsel).2.2.1
    | some p => simpa using (my_application_activate_selected env self p hsel).2.2.1
  · intro p hsel hfail
    obtain ⟨a1, a2, a3, _⟩ := my_application_activate_selected env self p hsel
    exact ⟨by simpa [hfail] using a1, a3, a2⟩

/-- C7 at a concrete world: the first bundle icon is present but corrupt, the
second is present and valid; only the first is tested and loaded, and no icon
is set. -/
theorem stop_on_corrupt_witness :
    (my_application_activate
      (example_env
        ["/opt/clash/data/flutter_assets/assets/taskbar_icon_noalpha.png",
         "/opt/clash/data/flutter_assets/icon.png"]
        ["/opt/clash/data/flutter_assets/assets/taskbar_icon_noalpha.png"]) ⟨none⟩).1.icon =
      none ∧
    icon_loads (my_application_activate
      (example_env
        ["/opt/clash/data/flutter_assets/assets/taskbar_icon_noalpha.png",
         "/opt/clash/data/flutter_assets/icon.png"]
        ["/opt/clash/data/flutter_assets/assets/taskbar_icon_noalpha.png"]) ⟨none⟩).2 =
      ["/opt/clash/data/flutter_assets/assets/taskbar_icon_noalpha.png"] ∧
    file_tests (my_application_activate
      (example_env
        ["/opt/clash/data/flutter_assets/assets/taskbar_icon_noalpha.png",
         "/opt/clash/data/flutter_assets/icon.png"]
        ["/opt/clash/data/flutter_assets/assets/taskbar_icon_noalpha.png"]) ⟨none⟩).2 =
      [] ++ ["/opt/clash/data/flutter_assets/assets/taskbar_icon_noalpha.png"] :=
  (stop_on_corrupt
    (example_env
      ["/opt/clash/data/flutter_assets/assets/taskbar_icon_noalpha.png",
       "/opt/clash/data/flutter_assets/icon.png"]
      ["/opt/clash/data/flutter_assets/assets/taskbar_icon_noalpha.png"]) ⟨none⟩).2
    "/opt/clash/data/flutter_assets/assets/taskbar_icon_noalpha.png" (by decide) (by decide)

/-! ## Command line handling -/

theorem my_application_activate_activations (env : Env) (self : MyApplication) :
    activations (my_application_activate env self).2 = 0 := by
  obtain ⟨_, _, _, c4, _⟩ := activate_chrome_calls env gtk_application_window_new
  obtain ⟨_, _, _, e4⟩ := exe_dir_calls env
  have hicon : ∀ w, activations (activate_window_icon env w).2 = 0 := by
    intro w
    cases hsel : selected_candidate env with
    | none =>
      rw [activate_window_icon_none env w hsel]
      simp [activations_append, e4, activations_map, activations]
    | some p =>
      rw [(activate_window_icon_selected env w p hsel).2]
      cases (env.gtk_window_set_icon_from_file p).ok <;>
        cases (env.gtk_window_set_icon_from_file p).error <;>
        simp [activations_append, e4, activations_map, activations]
  simp only [my_application_activate, activations_append, c4, hicon]
  simp [activations, activate_view]

theorem my_application_activate_forwards (env : Env) (self : MyApplication) :
    (∃ view, (my_application_activate env self).1.child = some view ∧
      view.dart_entrypoint_arguments = self.dart_entrypoint_arguments) ∧
    Call.fl_dart_project_set_dart_entrypoint_arguments self.dart_entrypoint_arguments ∈
      (my_application_activate env self).2 := by
  refine ⟨⟨_, rfl, rfl⟩, ?_⟩
  simp [my_application_activate, activate_view]

/-- C5. For a non-empty argument vector `a0 :: rest`, provided a failing
registration leaves an error, `my_application_local_command_line` returns, and
the entry-point arguments it stores are exactly `rest`, whether registration
succeeds or fails.  `my_application_activate` hands the stored arguments of
the application to the Flutter project of the view it creates, so after a
successful registration the view receives exactly `rest`. -/
theorem entrypoint_arguments_drop_first (env : Env) (self : MyApplication) (a0 : String)
    (rest : List String)
    (hreg : env.g_application_register.ok = false → env.g_application_register.error ≠ none) :
    (∃ r, my_application_local_command_line env self (a0 :: rest) = some r ∧
      r.self.dart_entrypoint_arguments = some rest ∧
      (env.g_application_register.ok = true →
        Call.fl_dart_project_set_dart_entrypoint_arguments (some rest) ∈ r.calls ∧
        ∃ w view, r.window = some w ∧ w.child = some view ∧
          view.dart_entrypoint_arguments = some rest)) ∧
    (∀ app : MyApplication,
      (∃ view, (my_application_activate env app).1.child = some view ∧
        view.dart_entrypoint_arguments = app.dart_entrypoint_arguments) ∧
      Call.fl_dart_project_set_dart_entrypoint_arguments app.dart_entrypoint_arguments ∈
        (my_application_activate env app).2) := by
  refine ⟨?_, fun app => my_application_activate_forwards env app⟩
  cases hok : env.g_application_register.ok with
  | false =>
    cases herr : env.g_application_register.error with
    | none => exact absurd herr (hreg hok)
    | some message =>
      exact ⟨_, by simp only [my_application_local_command_line, hok, herr]; rfl, rfl, by simp⟩
  | true =>
    refine ⟨_, by simp only [my_application_local_command_line, hok]; rfl, rfl, fun _ => ?_⟩
    obtain ⟨⟨view, hv1, hv2⟩, hcall⟩ :=
      my_application_activate_forwards env { self with dart_entrypoint_arguments := some rest }
    exact ⟨by simp [hcall], _, view, rfl, hv1, hv2⟩

/-- C5 at a concrete command line. -/
theorem entrypoint_arguments_drop_first_witness :
    ∃ r, my_application_local_command_line (example_env [] []) ⟨none⟩
        ["/opt/clash/clash", "--profile", "work"] = some r ∧
      r.self.dart_entrypoint_arguments = some ["--profile", "work"] :=
  have h := (entrypoint_arguments_drop_first (example_env [] []) ⟨none⟩ "/opt/clash/clash"
    ["--profile", "work"] (by decide)).1
  h.elim fun r hr => ⟨r, hr.1, hr.2.1⟩

/-- C6. For a non-empty argument vector, provided a failing registration
leaves an error, `my_application_local_command_line` returns `TRUE`, and the
exit status it stores is non-zero exactly when registration fails.  On failure
it logs the "Failed to register" warning with the error message, stores exit
status 1 and does not activate the application; on success it activates the
application exactly once and stores exit status 0. -/
theorem exit_status_reflects_registration (env : Env) (self : MyApplication) (a0 : String)
    (rest : List String)
    (hreg : env.g_application_register.ok = false → env.g_application_register.error ≠ none) :
    ∃ r, my_application_local_command_line env self (a0 :: rest) = some r ∧
      r.handled = true ∧
      (r.exit_status ≠ 0 ↔ env.g_application_register.ok = false) ∧
      ((env.g_application_register.ok = false ∧ r.exit_status = 1 ∧
          (∃ message, env.g_application_register.error = some message ∧
            warnings r.calls = [("Failed to register: %s", [message])]) ∧
          activations r.calls = 0 ∧ r.window = none) ∨
       (env.g_application_register.ok = true ∧ r.exit_status = 0 ∧
          activations r.calls = 1 ∧
          r.window = some (my_application_activate env r.self).1)) := by
  cases hok : env.g_application_register.ok with
  | false =>
    cases herr : env.g_application_register.error with
    | none => exact absurd herr (hreg hok)
    | some message =>
      refine ⟨_, by simp only [my_application_local_command_line, hok, herr]; rfl, rfl,
        by simp, Or.inl ⟨rfl, rfl, ⟨message, rfl, ?_⟩, ?_, rfl⟩⟩
      · simp [warnings]
      · simp [activations]
  | true =>
    refine ⟨_, by simp only [my_application_local_command_line, hok]; rfl, rfl,
      by simp, Or.inr ⟨rfl, rfl, ?_, rfl⟩⟩
    simp only [activations_append, my_application_activate_activations]
    simp [activations]

/-- C6 at a concrete world in which registration fails. -/
theorem exit_status_reflects_registration_witness :
    ∃ r, my_application_local_command_line
        { example_env [] [] with g_application_register := ⟨false, some "name taken"⟩ }
        ⟨none⟩ ["/opt/clash/clash"] = some r ∧
      r.handled = true ∧ r.exit_status = 1 ∧ activations r.calls = 0 :=
  have h := exit_status_reflects_registration
    { example_env [] [] with g_application_register := ⟨false, some "name taken"⟩ }
    ⟨none⟩ "/opt/clash/clash" [] (by decide)
  h.elim fun r hr =>
    ⟨r, hr.1, hr.2.1, hr.2.2.2.elim (fun l => ⟨l.2.1, l.2.2.2.1⟩)
      (fun l => absurd l.1 (by decide))⟩

/-! ## The application default icon -/

/-- What `my_application_new` installs as the default icon: the themed icon
when the theme loads it, nothing when a theme is available but cannot load it,
and the file fallback only when no theme is available. -/
theorem my_application_new_default_icon (env : Env) :
    (env.gtk_icon_theme_get_default = true →
      file_tests (my_application_new env).calls = [] ∧
      (my_application_new env).default_icon =
        if env.gtk_icon_theme_load_icon env.APPLICATION_ID 256
        then some (GdkPixbuf.fromTheme env.APPLICATION_ID 256) else none) ∧
    (env.gtk_icon_theme_get_default = false →
      (my_application_new env).default_icon =
        if env.g_file_test "runner/icon.png" then
          (if env.gdk_pixbuf_new_from_file "runner/icon.png"
           then some (GdkPixbuf.fromFile "runner/icon.png") else none)
        else if env.g_file_test "icon.png" then
          (if env.gdk_pixbuf_new_from_file "icon.png"
           then some (GdkPixbuf.fromFile "icon.png") else none)
        else none) := by
  constructor
  · intro h
    simp only [my_application_new, new_theme_icon, new_fallback_icon, h, Bool.not_true,
      Bool.false_eq_true, if_false, if_true]
    split_ifs <;> simp [file_tests]
  · intro h
    simp only [my_application_new, new_theme_icon, new_fallback_icon, h, Bool.not_false,
      Bool.false_eq_true, if_false, if_true]
    split_ifs <;> simp

/-- C8, the code at the input where it departs from the claim: a default icon
theme is available but cannot load the application icon, and `runner/icon.png`
exists and decodes.  `my_application_new` probes no file and installs no
default icon. -/
theorem my_application_new_skips_fallback :
    example_env_theme_without_icon.gtk_icon_theme_get_default = true ∧
    example_env_theme_without_icon.gtk_icon_theme_load_icon
      example_env_theme_without_icon.APPLICATION_ID 256 = false ∧
    example_env_theme_without_icon.g_file_test "runner/icon.png" = true ∧
    example_env_theme_without_icon.gdk_pixbuf_new_from_file "runner/icon.png" = true ∧
    file_tests (my_application_new example_env_theme_without_icon).calls = [] ∧
    (my_application_new example_env_theme_without_icon).default_icon = none := by
  decide

/-! ## Window chrome -/

theorem use_header_bar_eq_false_iff (env : Env)
    (hbuild : ∀ s, env.gtk_window_get_screen = some s → s.is_x11 = true →
      env.GDK_WINDOWING_X11 = true) :
    (use_header_bar env).1 = false ↔ x11_without_gnome_shell env := by
  unfold x11_without_gnome_shell
  cases hscreen : env.gtk_window_get_screen with
  | none => cases hG : env.GDK_WINDOWING_X11 <;> simp [use_header_bar, hscreen, hG]
  | some s =>
    cases hx : s.is_x11 with
    | false => cases hG : env.GDK_WINDOWING_X11 <;> simp [use_header_bar, hscreen, hG, hx]
    | true =>
      have hb := hbuild s hscreen hx
      by_cases hw : s.wm_name = some "GNOME Shell"
      · have h0 : g_strcmp0 (some "GNOME Shell") (some "GNOME Shell") = 0 :=
          (g_strcmp0_eq_zero_iff _ _).2 rfl
        simp [use_header_bar, hscreen, hx, hb, h0, hw]
      · have h0 : ¬ g_strcmp0 s.wm_name (some "GNOME Shell") = 0 :=
          fun h => hw ((g_strcmp0_eq_zero_iff _ _).1 h)
        simp [use_header_bar, hscreen, hx, hb, h0, hw]

theorem activate_window_icon_keeps_chrome (env : Env) (window : GtkWindow) :
    (activate_window_icon env window).1.titlebar = window.titlebar ∧
    (activate_window_icon env window).1.title = window.title ∧
    (activate_window_icon env window).1.default_size = window.default_size := by
  cases hsel : selected_candidate env with
  | none => rw [activate_window_icon_none env window hsel]; exact ⟨rfl, rfl, rfl⟩
  | some p =>
    rw [(activate_window_icon_selected env window p hsel).1]
    split_ifs <;> exact ⟨rfl, rfl, rfl⟩

/-- C9. Provided X11 screens only occur in a build with the X11 backend, the
window built by an activation has a traditional title bar (no header bar, the
window title set to "Clash") exactly when its screen is an X11 screen whose
window manager name is not exactly "GNOME Shell", an absent name included;
in every other case it has a visible header bar titled "Clash" with a close
button.  In both cases the default size is 1280 by 720. -/
theorem window_chrome_selection (env : Env) (self : MyApplication)
    (hbuild : ∀ s, env.gtk_window_get_screen = some s → s.is_x11 = true →
      env.GDK_WINDOWING_X11 = true) :
    ((my_application_activate env self).1.titlebar = none ↔ x11_without_gnome_shell env) ∧
    ((x11_without_gnome_shell env ∧
        (my_application_activate env self).1.titlebar = none ∧
        (my_application_activate env self).1.title = some "Clash") ∨
     (¬ x11_without_gnome_shell env ∧
        (my_application_activate env self).1.titlebar = some ⟨some "Clash", true, true⟩ ∧
        (my_application_activate env self).1.title = none)) ∧
    (my_application_activate env self).1.default_size = some (1280, 720) := by
  obtain ⟨k1, k2, k3⟩ :=
    activate_window_icon_keeps_chrome env (activate_chrome env gtk_application_window_new).1
  have hiff := use_header_bar_eq_false_iff env hbuild
  have t1 : (my_application_activate env self).1.titlebar =
      (activate_chrome env gtk_application_window_new).1.titlebar := k1
  have t2 : (my_application_activate env self).1.title =
      (activate_chrome env gtk_application_window_new).1.title := k2
  have t3 : (my_application_activate env self).1.default_size =
      (activate_chrome env gtk_application_window_new).1.default_size := k3
  rw [t1, t2, t3]
  cases hu : (use_header_bar env).1 with
  | false =>
    have hx : x11_without_gnome_shell env := hiff.1 hu
    simp [activate_chrome, hu, gtk_application_window_new, hx]
  | true =>
    have hx : ¬ x11_without_gnome_shell env := fun h => by
      have := hiff.2 h
      rw [hu] at this
      exact Bool.noConfusion this
    simp [activate_chrome, hu, gtk_application_window_new, hx]

/-- C9 at a concrete world: an X11 screen whose window manager is not GNOME
Shell gets a traditional title bar. -/
theorem window_chrome_selection_witness :
    (my_application_activate
      { example_env [] [] with gtk_window_get_screen := some ⟨true, some "i3"⟩ }
      ⟨none⟩).1.titlebar = none ∧
    (my_application_activate
      { example_env [] [] with gtk_window_get_screen := some ⟨true, some "i3"⟩ }
      ⟨none⟩).1.title = some "Clash" ∧
    (my_application_activate
      { example_env [] [] with gtk_window_get_screen := some ⟨true, some "i3"⟩ }
      ⟨none⟩).1.default_size = some (1280, 720) :=
  have h := window_chrome_selection
    { example_env [] [] with gtk_window_get_screen := some ⟨true, some "i3"⟩ } ⟨none⟩
    (by intro s _ _; rfl)
  ⟨by decide, by decide, h.2.2⟩

/-! ## Log filtering -/

/-- C10. The handler `suppress_gtk_screen_warning` makes no call to the default
handler exactly when the level is `G_LOG_LEVEL_CRITICAL`, the log domain is
present and starts with "Gtk", and the message is present and contains
"gtk_icon_theme_get_for_screen"; in every other case it makes exactly one
call, with the domain, level, message and user data it was given. -/
theorem suppress_gtk_screen_warning_drops_iff (log_domain : Option String)
    (log_level : Nat) (message : Option String) (user_data : Nat) :
    (suppress_gtk_screen_warning log_domain log_level message user_data = [] ↔
      (log_level = G_LOG_LEVEL_CRITICAL ∧
       (∃ d, log_domain = some d ∧ "Gtk".data <+: d.data) ∧
       (∃ m, message = some m ∧ "gtk_icon_theme_get_for_screen".data <:+: m.data))) ∧
    (suppress_gtk_screen_warning log_domain log_level message user_data = [] ∨
     suppress_gtk_screen_warning log_domain log_level message user_data =
       [⟨log_domain, log_level, message, user_data⟩]) := by
  have hcond : suppress_condition log_domain log_level message = true ↔
      (log_level = G_LOG_LEVEL_CRITICAL ∧
       (∃ d, log_domain = some d ∧ "Gtk".data <+: d.data) ∧
       (∃ m, message = some m ∧ "gtk_icon_theme_get_for_screen".data <:+: m.data)) := by
    cases log_domain <;> cases message <;>
      simp [suppress_condition, g_str_has_prefix, g_strstr_len, startsWith_iff,
        strstr_isSome_iff, and_assoc]
  constructor
  · rw [← hcond]
    unfold suppress_gtk_screen_warning
    split_ifs with h <;> simp [h]
  · unfold suppress_gtk_screen_warning
    split_ifs <;> simp

/-- C10 at concrete messages: the GTK assertion failure is dropped, and a
critical message of another domain is handed on. -/
theorem suppress_gtk_screen_warning_drops_iff_witness :
    suppress_gtk_screen_warning (some "Gtk") G_LOG_LEVEL_CRITICAL
      (some "gtk_icon_theme_get_for_screen: assertion GDK_IS_SCREEN (screen) failed") 0 = [] ∧
    suppress_gtk_screen_warning (some "GLib") G_LOG_LEVEL_CRITICAL
      (some "gtk_icon_theme_get_for_screen: assertion GDK_IS_SCREEN (screen) failed") 0 ≠ [] :=
  ⟨(suppress_gtk_screen_warning_drops_iff (some "Gtk") G_LOG_LEVEL_CRITICAL
      (some "gtk_icon_theme_get_for_screen: assertion GDK_IS_SCREEN (screen) failed") 0).1.2
      ⟨rfl, ⟨"Gtk", rfl, by decide⟩, ⟨_, rfl, by decide⟩⟩,
   by decide⟩

end Clash
